import Mathlib

/-!
Shallow embedding of the KULA backend's order–inventory–payment
reconciliation engine, translated from the TypeScript sources
(`src/routes/orders.ts`, the payments router, `src/routes/business.ts`,
`src/services/yoco.ts`).  Stateful route handlers become functions from an
explicit system state to a response paired with the next state; machine
integers become `Nat`/`Int`; fallible steps return `Except`.
-/

namespace Kula

/-- Order lifecycle status strings used by the code
(`collected` is the code's name for the spec's `redeemed`). -/
inductive OrderStatus
  | pending
  | paid
  | ready
  | collected
  | cancelled
  | refunded
  deriving DecidableEq, Repr

/-- Payment status strings used by the code. -/
inductive PaymentStatus
  | pending
  | succeeded
  | failed
  | refunded
  deriving DecidableEq, Repr

/-- A listing (`Bag` row): the per-listing stock counter plus the flags the
reservation guards read.  `quantityRemaining` is `Int` because the code's
post-decrement safeguard explicitly tests for a negative value. -/
structure Bag where
  restaurantId : String
  isActive : Bool
  isSoldOut : Bool
  quantityTotal : Nat
  quantityRemaining : Int
  priceCurrent : Nat
  pickupEnd : Nat
  deriving DecidableEq, Repr

/-- An `Order` row, restricted to the fields the core handlers touch. -/
structure Order where
  id : String
  orderNumber : String
  userId : String
  restaurantId : String
  quantity : Nat
  subtotal : Nat
  platformFee : Nat
  total : Nat
  status : OrderStatus
  qrCode : String
  qrScannedAt : Option Nat
  cancelledAt : Option Nat
  cancelledById : Option String
  cancellationReason : Option String
  deriving DecidableEq, Repr

/-- A `Payment` row.  `checkoutId` embeds the code's
`stripePaymentIntentId` column (reused for the Yoco checkout id) and
`chargeId` embeds `stripeChargeId`. -/
structure Payment where
  orderId : String
  amount : Nat
  status : PaymentStatus
  checkoutId : String
  chargeId : Option String
  paidAt : Option Nat
  failedAt : Option Nat
  refundedAt : Option Nat
  refundAmount : Option Nat
  failureReason : Option String
  deriving DecidableEq, Repr

/-- The state the reconciliation handlers mutate: one listing, at most one
order, at most one payment, and the buyer's loyalty-point balance.  Every
core handler in the source reads and writes exactly one row of each kind. -/
structure SysState where
  bag : Bag
  order : Option Order
  payment : Option Payment
  loyaltyPoints : Nat
  deriving DecidableEq, Repr

/-- `ApiError(message, statusCode)` from `src/types/index.ts`. -/
structure ApiError where
  msg : String
  code : Nat
  deriving DecidableEq, Repr

/-- The observable outcome of one Express handler invocation. -/
inductive HResp
  | jsonOk
  | created
  | apiErr (msg : String) (code : Nat)
  | redirect (target : String)
  | thrown (msg : String)
  deriving DecidableEq, Repr

/-! ## Inventory Ledger -/

/-- The reservation transaction of `POST /api/v1/orders` (part_004 lines
249–285): look up the bag, check active/sold-out, stock, pickup window,
then decrement `quantityRemaining` and recompute `isSoldOut` from the
pre-read value, with the post-decrement negative safeguard.  An `error`
result means the transaction rolled back: no row is modified. -/
def reserveTx : Option Bag → Nat → Nat → Except ApiError Bag
  | none, _, _ => .error ⟨"Bag not found", 404⟩
  | some bag, quantity, now =>
    if !bag.isActive || bag.isSoldOut then
      .error ⟨"Bag is not available", 400⟩
    else if bag.quantityRemaining < (quantity : Int) then
      .error ⟨"Not enough bags available", 400⟩
    else if now > bag.pickupEnd then
      .error ⟨"Pickup window has ended", 400⟩
    else
      let updatedBag : Bag :=
        { bag with
          quantityRemaining := bag.quantityRemaining - (quantity : Int),
          isSoldOut := decide (bag.quantityRemaining - (quantity : Int) ≤ 0) }
      if updatedBag.quantityRemaining < 0 then
        .error ⟨"Not enough bags available", 400⟩
      else
        .ok updatedBag

/-- The unconditional inventory release every restore site performs:
`quantityRemaining: { increment: quantity }, isSoldOut: false`. -/
def releaseBag (b : Bag) (q : Nat) : Bag :=
  { b with quantityRemaining := b.quantityRemaining + (q : Int), isSoldOut := false }

/-! ## Order creation (`POST /api/v1/orders`) -/

/-- `POST /api/v1/orders` (part_004 lines 244–388): run the reservation
transaction, price the order (`subtotal = priceCurrent * quantity`,
`platformFee = 250`, `total = subtotal + platformFee`), create the pending
order, then call the gateway.  `gatewayOk = false` embeds
`yoco.createCheckout` throwing: the catch block deletes the pending order
(and no payment record was created); the bag row is not touched by the
catch block. -/
def createOrderRoute (s : SysState) (callerId : String) (quantity now : Nat)
    (oid orderNumber qrCode : String) (gatewayOk : Bool) (checkoutId : String) :
    HResp × SysState :=
  match reserveTx (some s.bag) quantity now with
  | .error e => (.apiErr e.msg e.code, s)
  | .ok updatedBag =>
    let subtotal := s.bag.priceCurrent * quantity
    let platformFee := 250
    let total := subtotal + platformFee
    let order : Order :=
      { id := oid
        orderNumber := orderNumber
        userId := callerId
        restaurantId := s.bag.restaurantId
        quantity := quantity
        subtotal := subtotal
        platformFee := platformFee
        total := total
        status := .pending
        qrCode := qrCode
        qrScannedAt := none
        cancelledAt := none
        cancelledById := none
        cancellationReason := none }
    let s1 : SysState := { s with bag := updatedBag, order := some order }
    let payment : Payment :=
      { orderId := oid
        amount := total
        status := .pending
        checkoutId := checkoutId
        chargeId := none
        paidAt := none
        failedAt := none
        refundedAt := none
        refundAmount := none
        failureReason := none }
    if gatewayOk then
      (.created, { s1 with payment := some payment })
    else
      (.apiErr "Failed to create payment checkout" 500, { s1 with order := none })

/-! ## Redirect cancel / failure callbacks -/

/-- `restoreInventory(orderId)` (payments router lines 346–361): look the
order up by id; when it exists, unconditionally increment the bag's
`quantityRemaining` by the order's quantity and clear `isSoldOut`.  There
is no guard on the order's status. -/
def restoreInventory (s : SysState) (orderId : String) : SysState :=
  match s.order with
  | some o => if o.id = orderId then { s with bag := releaseBag s.bag o.quantity } else s
  | none => s

/-- `prisma.order.delete` with the surrounding `catch` that ignores a
missing row. -/
def deleteOrderIgnoringErrors (s : SysState) (orderId : String) : SysState :=
  match s.order with
  | some o => if o.id = orderId then { s with order := none } else s
  | none => s

/-- Shared body of `GET /yoco/cancel` and `GET /yoco/failure`: when an
`orderId` query parameter is present, restore inventory and then delete
the order (errors ignored); always redirect to the deep link. -/
def cancelCallbackCore (s : SysState) (orderId? : Option String) : SysState :=
  match orderId? with
  | none => s
  | some oid => deleteOrderIgnoringErrors (restoreInventory s oid) oid

/-- `GET /api/v1/payments/yoco/cancel` (payments router lines 423–440). -/
def yocoCancelRoute (s : SysState) (orderId? : Option String) : HResp × SysState :=
  (.redirect "payment/cancelled", cancelCallbackCore s orderId?)

/-- `GET /api/v1/payments/yoco/failure` (payments router lines 443–460). -/
def yocoFailureRoute (s : SysState) (orderId? : Option String) : HResp × SysState :=
  (.redirect "payment/failed", cancelCallbackCore s orderId?)

/-! ## Webhook event dispatch -/

/-- `prisma.payment.findFirst({ where: { stripePaymentIntentId }, include:
{ order } })` followed by the `payment && payment.order` guard. -/
def paymentByCheckout (s : SysState) (checkoutId : String) : Option (Payment × Order) :=
  match s.payment, s.order with
  | some p, some o =>
    if p.checkoutId = checkoutId ∧ p.orderId = o.id then some (p, o) else none
  | _, _ => none

/-- Lookup by `stripeChargeId` for `refund.succeeded`. -/
def paymentByCharge (s : SysState) (chargeId : String) : Option (Payment × Order) :=
  match s.payment, s.order with
  | some p, some o =>
    if p.chargeId = some chargeId ∧ p.orderId = o.id then some (p, o) else none
  | _, _ => none

/-- The `payment.succeeded` case (payments router lines 491–523): when the
payment and its order are found, one transaction sets the order to `paid`,
the payment to `succeeded` (stamping `paidAt` and storing the provider
payment id), and increments the buyer's loyalty points by the order
quantity.  No check of the payment's prior status is made. -/
def webhookPaymentSucceeded (s : SysState) (checkoutId payloadId : String) (now : Nat) :
    SysState :=
  match paymentByCheckout s checkoutId with
  | some (p, o) =>
    { s with
      order := some { o with status := .paid },
      payment := some
        { p with
          status := .succeeded
          paidAt := some now
          chargeId := some payloadId },
      loyaltyPoints := s.loyaltyPoints + o.quantity }
  | none => s

/-- The `payment.failed` case (payments router lines 525–557): when found,
one transaction releases the reserved quantity back to the bag, marks the
payment `failed`, and deletes the order.  No guard on the order's status. -/
def webhookPaymentFailed (s : SysState) (checkoutId : String) (reason? : Option String)
    (now : Nat) : SysState :=
  match paymentByCheckout s checkoutId with
  | some (p, o) =>
    { s with
      bag := releaseBag s.bag o.quantity,
      payment := some
        { p with
          status := .failed
          failedAt := some now
          failureReason := some (reason?.getD "Payment failed") },
      order := none }
  | none => s

/-- The `refund.succeeded` case (payments router lines 559–593): when
found by charge id, one transaction releases the reserved quantity, marks
the payment `refunded`, and sets the order status to `refunded`. -/
def webhookRefundSucceeded (s : SysState) (providerPaymentId _refundId : String)
    (amount now : Nat) : SysState :=
  match paymentByCharge s providerPaymentId with
  | some (p, o) =>
    { s with
      bag := releaseBag s.bag o.quantity,
      payment := some
        { p with
          status := .refunded
          refundedAt := some now
          refundAmount := some amount },
      order := some { o with status := .refunded } }
  | none => s

/-- A normalized webhook event, as the `switch (type)` dispatch sees it.
The checkout id embeds `payload.metadata?.checkoutId || payload.id`. -/
inductive WebhookEvent
  | paymentSucceeded (checkoutId payloadId : String)
  | paymentFailed (checkoutId : String) (reason? : Option String)
  | refundSucceeded (providerPaymentId refundId : String) (amount : Nat)
  | other
  deriving DecidableEq, Repr

/-- The `switch` over the event type after signature verification
(payments router lines 487–596); unrecognized types fall through and the
handler replies `{ received: true }`. -/
def processWebhookEvent (s : SysState) (ev : WebhookEvent) (now : Nat) : HResp × SysState :=
  match ev with
  | .paymentSucceeded cid pid => (.jsonOk, webhookPaymentSucceeded s cid pid now)
  | .paymentFailed cid r => (.jsonOk, webhookPaymentFailed s cid r now)
  | .refundSucceeded pid amtId amt => (.jsonOk, webhookRefundSucceeded s pid amtId amt now)
  | .other => (.jsonOk, s)

/-! ## Redirect-success callback -/

/-- `GET /api/v1/payments/yoco/success` (payments router lines 365–420):
look the order up (with its payment); when a payment with a checkout id is
attached, poll the provider (`providerStatus? = none` embeds the poll
throwing, caught by the handler's `catch`).  Only when the polled raw
status is the string `"successful"` does one transaction set the order to
`paid`, the payment to `succeeded`, and increment loyalty points;
otherwise the handler redirects to the pending deep link.  The payment's
prior status is never consulted. -/
def yocoSuccessRoute (s : SysState) (orderId? : Option String)
    (providerStatus? : Option String) (now : Nat) : HResp × SysState :=
  match orderId? with
  | none => (.redirect "payment/error?message=Missing order ID", s)
  | some oid =>
    match s.order with
    | none => (.redirect "payment/error?message=Order not found", s)
    | some o =>
      if o.id = oid then
        match s.payment with
        | some p =>
          if p.orderId = o.id ∧ p.checkoutId ≠ "" then
            match providerStatus? with
            | none => (.redirect "payment/error?message=Payment verification failed", s)
            | some st =>
              if st = "successful" then
                (.redirect "payment/success",
                  { s with
                    order := some { o with status := .paid },
                    payment := some { p with status := .succeeded, paidAt := some now },
                    loyaltyPoints := s.loyaltyPoints + o.quantity })
              else
                (.redirect "payment/pending", s)
          else (.redirect "payment/pending", s)
        | none => (.redirect "payment/pending", s)
      else (.redirect "payment/error?message=Order not found", s)

/-! ## Buyer cancel -/

/-- `POST /api/v1/orders/:id/cancel` (part_004 lines 428–470): the status
guard (`pending` or `paid`) is evaluated on a read performed before the
transaction; on success one transaction marks the order `cancelled`
(stamping cancellation metadata) and releases the reserved quantity. -/
def cancelOrderRoute (s : SysState) (callerId orderId : String)
    (reason? : Option String) (now : Nat) : HResp × SysState :=
  match s.order with
  | none => (.apiErr "Order not found" 404, s)
  | some o =>
    if o.id ≠ orderId then (.apiErr "Order not found" 404, s)
    else if o.userId ≠ callerId then (.apiErr "Not authorized" 403, s)
    else if ¬(o.status = .pending ∨ o.status = .paid) then
      (.apiErr "Order cannot be cancelled" 400, s)
    else
      (.jsonOk,
        { s with
          order := some
            { o with
              status := .cancelled
              cancelledAt := some now
              cancelledById := some callerId
              cancellationReason := reason? },
          bag := releaseBag s.bag o.quantity })

/-! ## Business-side order status change and pickup scan -/

/-- `PATCH /api/v1/business/orders/:id/status` (part_003 lines 161–206):
accepts `ready`/`collected`/`cancelled`, checks only that the order
belongs to the caller's restaurant, then writes the new status (stamping
`qrScannedAt` for `collected` and cancellation metadata for `cancelled`).
It neither guards on the current status nor touches the bag or payment. -/
def updateOrderStatusRoute (s : SysState) (callerId : String)
    (callerRestaurant? : Option String) (orderId : String) (newStatus : OrderStatus)
    (now : Nat) : HResp × SysState :=
  if ¬(newStatus = .ready ∨ newStatus = .collected ∨ newStatus = .cancelled) then
    (.apiErr "Invalid status" 400, s)
  else
    match s.order, callerRestaurant? with
    | some o, some rid =>
      if o.id = orderId ∧ o.restaurantId = rid then
        let o2 : Order :=
          { o with
            status := newStatus
            qrScannedAt := if newStatus = .collected then some now else o.qrScannedAt
            cancelledAt := if newStatus = .cancelled then some now else o.cancelledAt
            cancelledById :=
              if newStatus = .cancelled then some callerId else o.cancelledById }
        (.jsonOk, { s with order := some o2 })
      else (.apiErr "Order not found" 404, s)
    | _, _ => (.apiErr "Order not found" 404, s)

/-- `POST /api/v1/business/orders/:id/scan` (part_003 lines 209–274): look
the order up by redemption code; 404 when no match, 403 when it belongs to
another restaurant, 400 when the status is outside {`paid`, `ready`};
otherwise set the status to `collected` and stamp `qrScannedAt`. -/
def scanOrderRoute (s : SysState) (callerRestaurant? : Option String)
    (qrCode? : Option String) (now : Nat) : HResp × SysState :=
  match qrCode? with
  | none => (.apiErr "QR code is required" 400, s)
  | some qr =>
    if qr = "" then (.apiErr "QR code is required" 400, s)
    else
      match callerRestaurant? with
      | none => (.apiErr "Restaurant not found" 404, s)
      | some rid =>
        match s.order with
        | none => (.apiErr "Invalid QR code" 404, s)
        | some o =>
          if o.qrCode = qr then
            if o.restaurantId ≠ rid then
              (.apiErr "Order belongs to another restaurant" 403, s)
            else if ¬(o.status = .paid ∨ o.status = .ready) then
              (.apiErr "Order cannot be collected" 400, s)
            else
              let o2 : Order := { o with status := .collected, qrScannedAt := some now }
              (.jsonOk, { s with order := some o2 })
          else (.apiErr "Invalid QR code" 404, s)

/-! ## Webhook signature verification and the webhook route -/

/-- JavaScript string interpolation of a possibly-`undefined` value:
template literals render `undefined` as the string `"undefined"`. -/
def jsStr : Option String → String
  | some s => s
  | none => "undefined"

/-- `verifyWebhookSignature` (`src/services/yoco.ts` lines 113–146),
declared with five parameters `(payload, signature, webhookId,
webhookTimestamp, webhookSecret)`.  Parameters are `Option String` so a
call site that omits trailing arguments (JavaScript passes `undefined`)
can be embedded faithfully.  `hmacBase64 secret content` abstracts the
base64 HMAC-SHA256; the `timingSafeEqual` over decoded buffers is
abstracted as equality of the base64 strings.  Accessing
`webhookSecret.replace` when `webhookSecret` is `undefined` throws a
`TypeError`, embedded as the `error` result. -/
def verifyWebhookSignature (payload signature webhookId webhookTimestamp
    webhookSecret : Option String) (hmacBase64 : String → String → String) :
    Except String Bool :=
  match webhookSecret with
  | none =>
    .error "TypeError: Cannot read properties of undefined (reading replace)"
  | some secret =>
    let secretB64 := secret.replace "whsec_" ""
    let signedContent :=
      jsStr webhookId ++ "." ++ jsStr webhookTimestamp ++ "." ++ jsStr payload
    let expected := hmacBase64 secretB64 signedContent
    let sigs := ((jsStr signature).splitOn " ").map (fun part => (part.splitOn ",").get? 1)
    .ok (sigs.any (fun sig? =>
      match sig? with
      | some sig => sig == expected
      | none => false))

/-- `POST /api/v1/payments/yoco/webhook` (payments router lines 464–600):
500 when no secret is configured, 401 when the `yoco-signature` header is
missing, otherwise call `yoco.verifyWebhookSignature(JSON.stringify(body),
signature, webhookSecret)` — three positional arguments against the
five-parameter declaration, so `webhookId` receives the secret and
`webhookTimestamp`/`webhookSecret` receive `undefined` — then 401 on
`false`, and on `true` dispatch the event. -/
def webhookRoute (s : SysState) (envSecret? sigHeader? : Option String)
    (body : String) (ev : WebhookEvent) (hmacBase64 : String → String → String)
    (now : Nat) : HResp × SysState :=
  match envSecret? with
  | none => (.apiErr "Webhook not configured" 500, s)
  | some secret =>
    match sigHeader? with
    | none => (.apiErr "Missing signature" 401, s)
    | some sig =>
      match verifyWebhookSignature (some body) (some sig) (some secret) none none
          hmacBase64 with
      | .error e => (.thrown e, s)
      | .ok false => (.apiErr "Invalid signature" 401, s)
      | .ok true => processWebhookEvent s ev now

/-! ## Operation sequences over the shared state -/

/-- One invocation of any of the handlers that can touch the listing, the
order, the payment, or the loyalty balance. -/
inductive Op
  | create (callerId : String) (quantity now : Nat) (oid orderNumber qrCode : String)
      (gatewayOk : Bool) (checkoutId : String)
  | buyerCancel (callerId orderId : String) (reason? : Option String) (now : Nat)
  | redirectCancel (orderId? : Option String)
  | redirectFailure (orderId? : Option String)
  | redirectSuccess (orderId? : Option String) (providerStatus? : Option String) (now : Nat)
  | webhook (ev : WebhookEvent) (now : Nat)
  | businessStatus (callerId : String) (callerRestaurant? : Option String)
      (orderId : String) (newStatus : OrderStatus) (now : Nat)
  | scan (callerRestaurant? : Option String) (qrCode? : Option String) (now : Nat)
  deriving Repr

/-- The state reached after one handler invocation (its response is
discarded; the webhook `Op` embeds the post-verification dispatch). -/
def applyOp (s : SysState) : Op → SysState
  | .create c q n oid onum qr gw cid => (createOrderRoute s c q n oid onum qr gw cid).2
  | .buyerCancel c oid r n => (cancelOrderRoute s c oid r n).2
  | .redirectCancel oid? => (yocoCancelRoute s oid?).2
  | .redirectFailure oid? => (yocoFailureRoute s oid?).2
  | .redirectSuccess oid? st? n => (yocoSuccessRoute s oid? st? n).2
  | .webhook ev n => (processWebhookEvent s ev n).2
  | .businessStatus c r? oid st n => (updateOrderStatusRoute s c r? oid st n).2
  | .scan r? qr? n => (scanOrderRoute s r? qr? n).2

/-- The state after a sequence of handler invocations. -/
def run (s : SysState) (ops : List Op) : SysState :=
  ops.foldl applyOp s

/-! ## Concrete fixtures for evaluation -/

/-- A listing with two units in stock, mirroring the spec's compensation
scenario (`remaining: 2→1`). -/
def demoBag : Bag :=
  { restaurantId := "r1"
    isActive := true
    isSoldOut := false
    quantityTotal := 2
    quantityRemaining := 2
    priceCurrent := 100
    pickupEnd := 100 }

/-- Initial state: the demo listing, no order, no payment, zero points. -/
def demoStart : SysState :=
  { bag := demoBag, order := none, payment := none, loyaltyPoints := 0 }

/-- State after a successful order creation for one unit (checkout session
`c1` opened at the gateway, pending payment recorded). -/
def demoAfterCreate : SysState :=
  (createOrderRoute demoStart "u1" 1 10 "o1" "KULA-1" "QR1" true "c1").2

/-- State after the `payment.succeeded` webhook has been applied once. -/
def demoPaid : SysState :=
  webhookPaymentSucceeded demoAfterCreate "c1" "pay_1" 20

/-- State after the paid order has been scanned (collected/redeemed). -/
def demoCollected : SysState :=
  (scanOrderRoute demoPaid (some "r1") (some "QR1") 40).2

/-- The order row created in `demoAfterCreate`. -/
def demoOrder : Order :=
  { id := "o1"
    orderNumber := "KULA-1"
    userId := "u1"
    restaurantId := "r1"
    quantity := 1
    subtotal := 100
    platformFee := 250
    total := 350
    status := .pending
    qrCode := "QR1"
    qrScannedAt := none
    cancelledAt := none
    cancelledById := none
    cancellationReason := none }

/-- The payment row created in `demoAfterCreate`. -/
def demoPayment : Payment :=
  { orderId := "o1"
    amount := 350
    status := .pending
    checkoutId := "c1"
    chargeId := none
    paidAt := none
    failedAt := none
    refundedAt := none
    refundAmount := none
    failureReason := none }

/-- An operation sequence in which the reservation of order `o1` is
released twice: once by the buyer cancel (which keeps the cancelled order
row) and once more by the cancel redirect callback (which finds that row
and restores again before deleting it). -/
def demoDoubleReleaseOps : List Op :=
  [Op.create "u1" 1 10 "o1" "KULA-1" "QR1" true "c1",
   Op.buyerCancel "u1" "o1" none 20,
   Op.redirectCancel (some "o1")]

/-- The order row of `demoPaid`. -/
def demoPaidOrder : Order :=
  { demoOrder with status := .paid }

/-- The order row of `demoCollected`. -/
def demoCollectedOrder : Order :=
  { demoOrder with status := .collected, qrScannedAt := some 40 }

/-! ## Theorems -/

/-- Releasing stock preserves non-negativity of the counter. -/
lemma releaseBag_nonneg {b : Bag} {q : Nat} (h : 0 ≤ b.quantityRemaining) :
    0 ≤ (releaseBag b q).quantityRemaining := by
  simp only [releaseBag]
  omega

/-- Releasing stock leaves `quantityTotal` unchanged. -/
lemma releaseBag_total (b : Bag) (q : Nat) : (releaseBag b q).quantityTotal = b.quantityTotal :=
  rfl

/-- A successful reservation returns a snapshot with a non-negative
remaining counter (the post-decrement safeguard rules the rest out) and an
unchanged `quantityTotal`. -/
lemma reserveTx_ok_inv {b b2 : Bag} {q now : Nat}
    (h : reserveTx (some b) q now = .ok b2) :
    0 ≤ b2.quantityRemaining ∧ b2.quantityTotal = b.quantityTotal := by
  simp only [reserveTx] at h
  split at h
  · cases h
  · split at h
    · cases h
    · split at h
      · cases h
      · split at h
        · cases h
        · rename_i hneg
          cases h
          exact ⟨not_lt.mp hneg, rfl⟩

/-- Deleting the order never touches the bag. -/
lemma deleteOrder_bag (s : SysState) (oid : String) :
    (deleteOrderIgnoringErrors s oid).bag = s.bag := by
  unfold deleteOrderIgnoringErrors
  split
  · split <;> rfl
  · rfl

/-- `restoreInventory` leaves the bag unchanged or releases the matched
order's quantity into it. -/
lemma restoreInventory_bag_cases (s : SysState) (oid : String) :
    (restoreInventory s oid).bag = s.bag
  ∨ ∃ q : Nat, (restoreInventory s oid).bag = releaseBag s.bag q := by
  unfold restoreInventory
  split
  · split
    · exact Or.inr ⟨_, rfl⟩
    · exact Or.inl rfl
  · exact Or.inl rfl

/-- The redirect-success handler never touches the bag. -/
lemma yocoSuccessRoute_bag (s : SysState) (oid? st? : Option String) (now : Nat) :
    (yocoSuccessRoute s oid? st? now).2.bag = s.bag := by
  unfold yocoSuccessRoute
  repeat first
    | rfl
    | split

/-- The business status endpoint never touches the bag. -/
lemma updateOrderStatusRoute_bag (s : SysState) (c : String) (r? : Option String)
    (oid : String) (st : OrderStatus) (now : Nat) :
    (updateOrderStatusRoute s c r? oid st now).2.bag = s.bag := by
  unfold updateOrderStatusRoute
  split
  · rfl
  · split
    · split <;> rfl
    · rfl

/-- The scan endpoint never touches the bag. -/
lemma scanOrderRoute_bag (s : SysState) (r? qr? : Option String) (now : Nat) :
    (scanOrderRoute s r? qr? now).2.bag = s.bag := by
  unfold scanOrderRoute
  repeat first
    | rfl
    | split

/-- The `payment.succeeded` webhook case never touches the bag. -/
lemma webhookPaymentSucceeded_bag (s : SysState) (cid pid : String) (now : Nat) :
    (webhookPaymentSucceeded s cid pid now).bag = s.bag := by
  unfold webhookPaymentSucceeded
  split <;> rfl

/-- Every handler leaves the bag unchanged, releases some quantity into
it, or replaces it by a successful reservation snapshot. -/
lemma applyOp_bag_cases (s : SysState) (op : Op) :
    (applyOp s op).bag = s.bag
  ∨ (∃ q : Nat, (applyOp s op).bag = releaseBag s.bag q)
  ∨ (∃ (q now : Nat) (b2 : Bag),
      reserveTx (some s.bag) q now = .ok b2 ∧ (applyOp s op).bag = b2) := by
  cases op with
  | create c q n oid onum qr gw cid =>
    simp only [applyOp, createOrderRoute]
    rcases hres : reserveTx (some s.bag) q n with e | b2
    · exact Or.inl rfl
    · refine Or.inr (Or.inr ⟨q, n, b2, hres, ?_⟩)
      cases gw <;> rfl
  | buyerCancel c oid r n =>
    simp only [applyOp, cancelOrderRoute]
    split
    · exact Or.inl rfl
    · split
      · exact Or.inl rfl
      · split
        · exact Or.inl rfl
        · split
          · exact Or.inl rfl
          · exact Or.inr (Or.inl ⟨_, rfl⟩)
  | redirectCancel oid? =>
    simp only [applyOp, yocoCancelRoute, cancelCallbackCore]
    rcases oid? with _ | oid
    · exact Or.inl rfl
    · rw [deleteOrder_bag]
      exact (restoreInventory_bag_cases s oid).imp id Or.inl
  | redirectFailure oid? =>
    simp only [applyOp, yocoFailureRoute, cancelCallbackCore]
    rcases oid? with _ | oid
    · exact Or.inl rfl
    · rw [deleteOrder_bag]
      exact (restoreInventory_bag_cases s oid).imp id Or.inl
  | redirectSuccess oid? st? n =>
    exact Or.inl (yocoSuccessRoute_bag s oid? st? n)
  | webhook ev n =>
    cases ev with
    | paymentSucceeded cid pid =>
      exact Or.inl (webhookPaymentSucceeded_bag s cid pid n)
    | paymentFailed cid r =>
      simp only [applyOp, processWebhookEvent, webhookPaymentFailed]
      split
      · exact Or.inr (Or.inl ⟨_, rfl⟩)
      · exact Or.inl rfl
    | refundSucceeded pid rid amt =>
      simp only [applyOp, processWebhookEvent, webhookRefundSucceeded]
      split
      · exact Or.inr (Or.inl ⟨_, rfl⟩)
      · exact Or.inl rfl
    | other => exact Or.inl rfl
  | businessStatus c r? oid st n =>
    exact Or.inl (updateOrderStatusRoute_bag s c r? oid st n)
  | scan r? qr? n =>
    exact Or.inl (scanOrderRoute_bag s r? qr? n)

/-- One step preserves a non-negative counter and the total. -/
lemma applyOp_bag_inv (s : SysState) (op : Op) (h : 0 ≤ s.bag.quantityRemaining) :
    0 ≤ (applyOp s op).bag.quantityRemaining
      ∧ (applyOp s op).bag.quantityTotal = s.bag.quantityTotal := by
  rcases applyOp_bag_cases s op with heq | ⟨q, heq⟩ | ⟨q, now, b2, hres, heq⟩
  · rw [heq]
    exact ⟨h, rfl⟩
  · rw [heq]
    exact ⟨releaseBag_nonneg h, releaseBag_total s.bag q⟩
  · rw [heq]
    exact reserveTx_ok_inv hres

/-- C3: when checkout-session creation at the gateway throws after a
successful reservation, the catch block deletes the order (no payment was
created yet) but never restores the listing: starting from `remaining = 2`
and reserving one unit, the failure leaves `remaining = 1`, not the
claimed pre-reservation value 2.  The reservation is leaked forever, since
the order row holding the quantity is gone. -/
theorem C3_gateway_failure_skips_restore :
    (createOrderRoute demoStart "u1" 1 10 "o1" "KULA-1" "QR1" false "c1").1 =
        .apiErr "Failed to create payment checkout" 500
      ∧ (createOrderRoute demoStart "u1" 1 10 "o1" "KULA-1" "QR1" false "c1").2.order = none
      ∧ (createOrderRoute demoStart "u1" 1 10 "o1" "KULA-1" "QR1" false "c1").2.payment = none
      ∧ demoStart.bag.quantityRemaining = 2
      ∧ (createOrderRoute demoStart "u1" 1 10 "o1" "KULA-1" "QR1" false "c1").2.bag.quantityRemaining = 1 := by
  refine ⟨rfl, rfl, rfl, rfl, rfl⟩

/-- C6: the webhook route calls the five-parameter
`verifyWebhookSignature` with only three arguments, so inside the function
`webhookSecret` is `undefined` and `webhookSecret.replace` throws a
`TypeError` for every request that carries a signature header — no request
with a signature is ever answered 401 or processed, valid or not; state is
never mutated.  A missing signature header does return 401 untouched. -/
theorem C6_webhook_verification_always_throws (s : SysState) (secret sig body : String)
    (ev : WebhookEvent) (hmacBase64 : String → String → String) (now : Nat) :
    webhookRoute s (some secret) (some sig) body ev hmacBase64 now =
        (.thrown "TypeError: Cannot read properties of undefined (reading replace)", s)
      ∧ webhookRoute s (some secret) none body ev hmacBase64 now =
        (.apiErr "Missing signature" 401, s) :=
  ⟨rfl, rfl⟩

/-- C10: every successfully created order is priced with the fixed
platform fee 250 (minor units), `subtotal = priceCurrent * quantity`, and
`total = subtotal + 250`; the payment record carries the same total.  The
fee is the literal constant 250 whatever the listing, restaurant or
quantity. -/
theorem C10_pricing (s : SysState) (callerId : String) (quantity now : Nat)
    (oid onum qr cid : String) (b : Bag)
    (h : reserveTx (some s.bag) quantity now = .ok b) :
    ∃ o : Order,
      (createOrderRoute s callerId quantity now oid onum qr true cid).2.order = some o
        ∧ o.platformFee = 250
        ∧ o.subtotal = s.bag.priceCurrent * quantity
        ∧ o.total = s.bag.priceCurrent * quantity + 250
        ∧ (∃ p : Payment,
            (createOrderRoute s callerId quantity now oid onum qr true cid).2.payment = some p
              ∧ p.amount = o.total) := by
  unfold createOrderRoute
  rw [h]
  exact ⟨_, rfl, rfl, rfl, rfl, _, rfl, rfl⟩

/-- C10 witness: instantiated at the demo state, quantity 1, price 100. -/
theorem C10_pricing_witness :
    ∃ o : Order,
      (createOrderRoute demoStart "u1" 1 10 "o1" "KULA-1" "QR1" true "c1").2.order = some o
        ∧ o.platformFee = 250
        ∧ o.subtotal = demoStart.bag.priceCurrent * 1
        ∧ o.total = demoStart.bag.priceCurrent * 1 + 250
        ∧ (∃ p : Payment,
            (createOrderRoute demoStart "u1" 1 10 "o1" "KULA-1" "QR1" true "c1").2.payment = some p
              ∧ p.amount = o.total) :=
  C10_pricing demoStart "u1" 1 10 "o1" "KULA-1" "QR1" "c1"
    { demoBag with quantityRemaining := 1, isSoldOut := false } (by rfl)

/-- C1 counterexample: delivering the same `payment.succeeded` webhook
event twice for an order of quantity 1 credits the buyer two loyalty
points, not one — the handler never checks the payment's prior status, so
the claimed idempotence fails at this concrete input. -/
theorem C1_double_delivery_double_credit :
    demoOrder.quantity = 1
      ∧ (webhookPaymentSucceeded demoAfterCreate "c1" "pay_1" 20).loyaltyPoints = 1
      ∧ (webhookPaymentSucceeded
          (webhookPaymentSucceeded demoAfterCreate "c1" "pay_1" 20) "c1" "pay_1" 20).loyaltyPoints = 2 :=
  ⟨rfl, rfl, rfl⟩

/-- C1 amended: for every matched `payment.succeeded` delivery the handler
adds the order quantity to the buyer's points, so two deliveries credit
`2 × quantity`; the order ends `paid` either way and the listing's
`quantityRemaining` is unaffected by either delivery (the reservation is
not re-touched). -/
theorem C1_second_delivery_re_credits (s : SysState) (p : Payment) (o : Order)
    (pid : String) (n1 n2 : Nat) (hp : s.payment = some p) (ho : s.order = some o)
    (hlink : p.orderId = o.id) :
    (webhookPaymentSucceeded s p.checkoutId pid n1).loyaltyPoints
        = s.loyaltyPoints + o.quantity
      ∧ (webhookPaymentSucceeded (webhookPaymentSucceeded s p.checkoutId pid n1)
          p.checkoutId pid n2).loyaltyPoints
        = s.loyaltyPoints + o.quantity + o.quantity
      ∧ (webhookPaymentSucceeded s p.checkoutId pid n1).bag = s.bag
      ∧ (webhookPaymentSucceeded (webhookPaymentSucceeded s p.checkoutId pid n1)
          p.checkoutId pid n2).bag = s.bag
      ∧ (webhookPaymentSucceeded s p.checkoutId pid n1).order = some { o with status := .paid }
      ∧ (webhookPaymentSucceeded (webhookPaymentSucceeded s p.checkoutId pid n1)
          p.checkoutId pid n2).order = some { o with status := .paid } := by
  simp [webhookPaymentSucceeded, paymentByCheckout, hp, ho, hlink, Nat.add_assoc]

/-- C1 witness: the amended statement evaluated in the demo state. -/
theorem C1_second_delivery_re_credits_witness :
    (webhookPaymentSucceeded demoAfterCreate demoPayment.checkoutId "pay_1" 20).loyaltyPoints
        = demoAfterCreate.loyaltyPoints + demoOrder.quantity
      ∧ (webhookPaymentSucceeded
          (webhookPaymentSucceeded demoAfterCreate demoPayment.checkoutId "pay_1" 20)
          demoPayment.checkoutId "pay_1" 21).loyaltyPoints
        = demoAfterCreate.loyaltyPoints + demoOrder.quantity + demoOrder.quantity
      ∧ (webhookPaymentSucceeded demoAfterCreate demoPayment.checkoutId "pay_1" 20).bag
        = demoAfterCreate.bag
      ∧ (webhookPaymentSucceeded
          (webhookPaymentSucceeded demoAfterCreate demoPayment.checkoutId "pay_1" 20)
          demoPayment.checkoutId "pay_1" 21).bag = demoAfterCreate.bag
      ∧ (webhookPaymentSucceeded demoAfterCreate demoPayment.checkoutId "pay_1" 20).order
        = some { demoOrder with status := .paid }
      ∧ (webhookPaymentSucceeded
          (webhookPaymentSucceeded demoAfterCreate demoPayment.checkoutId "pay_1" 20)
          demoPayment.checkoutId "pay_1" 21).order = some { demoOrder with status := .paid } :=
  C1_second_delivery_re_credits demoAfterCreate demoPayment demoOrder "pay_1" 20 21 rfl rfl rfl

/-- C5: the redirect-success handler compares the polled status against
the literal string `"successful"`, which is outside the adapter's declared
normalized status set `succeeded/completed/failed/pending`; when the
provider reports `succeeded` it therefore redirects to the pending deep
link and applies nothing — even when the payment is already `succeeded`
(`demoPaid`), it re-polls instead of returning the current state.  Only
the undeclared raw value `"successful"` triggers the success transition. -/
theorem C5_success_branch_unreachable_for_declared_statuses :
    yocoSuccessRoute demoAfterCreate (some "o1") (some "succeeded") 30 =
        (.redirect "payment/pending", demoAfterCreate)
      ∧ yocoSuccessRoute demoPaid (some "o1") (some "succeeded") 30 =
        (.redirect "payment/pending", demoPaid)
      ∧ yocoSuccessRoute demoAfterCreate (some "o1") (some "completed") 30 =
        (.redirect "payment/pending", demoAfterCreate)
      ∧ (yocoSuccessRoute demoAfterCreate (some "o1") (some "successful") 30).1 =
        .redirect "payment/success" :=
  ⟨rfl, rfl, rfl, rfl⟩

/-- C4 counterexample: the business-side status endpoint performs the
pending→cancelled transition while leaving the listing untouched — the
reserved quantity is released zero times, refuting "never zero times". -/
theorem C4_business_cancel_releases_nothing :
    demoAfterCreate.order.map Order.status = some .pending
      ∧ (updateOrderStatusRoute demoAfterCreate "owner1" (some "r1") "o1" .cancelled 30).1 = .jsonOk
      ∧ (updateOrderStatusRoute demoAfterCreate "owner1" (some "r1") "o1" .cancelled 30).2.order.map
          Order.status = some .cancelled
      ∧ (updateOrderStatusRoute demoAfterCreate "owner1" (some "r1") "o1" .cancelled 30).2.bag
        = demoAfterCreate.bag :=
  ⟨rfl, rfl, rfl, rfl⟩

/-- C4 amended: buyer cancel, webhook `payment.failed`, and webhook
`refund.succeeded` each release exactly the reserved quantity once per
matched invocation, but the business-side status endpoint transitions an
order to `cancelled` without any release at all (and, since cancelled
orders are kept, combinations of signals can release a second time — see
the C2 counterexample). -/
theorem C4_release_per_handler :
    (∀ s o callerId reason? now, s.order = some o → o.userId = callerId →
        (o.status = .pending ∨ o.status = .paid) →
        (cancelOrderRoute s callerId o.id reason? now).2.bag = releaseBag s.bag o.quantity)
  ∧ (∀ s p o reason? now, s.payment = some p → s.order = some o → p.orderId = o.id →
        (webhookPaymentFailed s p.checkoutId reason? now).bag = releaseBag s.bag o.quantity)
  ∧ (∀ s p o pid amount now, s.payment = some p → s.order = some o →
        p.chargeId = some pid → p.orderId = o.id →
        (webhookRefundSucceeded s pid "re_1" amount now).bag = releaseBag s.bag o.quantity)
  ∧ (∀ s o callerId rid now, s.order = some o → o.restaurantId = rid →
        (updateOrderStatusRoute s callerId (some rid) o.id .cancelled now).2.bag = s.bag) := by
  refine ⟨?_, ?_, ?_, ?_⟩
  · intro s o callerId reason? now ho huser hst
    simp [cancelOrderRoute, ho, huser, hst]
  · intro s p o reason? now hp ho hlink
    simp [webhookPaymentFailed, paymentByCheckout, hp, ho, hlink]
  · intro s p o pid amount now hp ho hch hlink
    simp [webhookRefundSucceeded, paymentByCharge, hp, ho, hch, hlink]
  · intro s o callerId rid now ho hrid
    simp [updateOrderStatusRoute, ho, hrid]

/-- C4 witness: the four release behaviours evaluated at concrete
states — buyer cancel and the two failure webhooks add the quantity back,
the business cancel leaves the listing as it was. -/
theorem C4_release_per_handler_witness :
    (cancelOrderRoute demoAfterCreate "u1" demoOrder.id none 20).2.bag
        = releaseBag demoAfterCreate.bag demoOrder.quantity
      ∧ (webhookPaymentFailed demoAfterCreate demoPayment.checkoutId none 20).bag
        = releaseBag demoAfterCreate.bag demoOrder.quantity
      ∧ (updateOrderStatusRoute demoAfterCreate "owner1" (some "r1") demoOrder.id .cancelled 30).2.bag
        = demoAfterCreate.bag :=
  ⟨C4_release_per_handler.1 demoAfterCreate demoOrder "u1" none 20 rfl rfl (Or.inl rfl),
   C4_release_per_handler.2.1 demoAfterCreate demoPayment demoOrder none 20 rfl rfl rfl,
   C4_release_per_handler.2.2.2 demoAfterCreate demoOrder "owner1" "r1" 30 rfl rfl⟩

/-- C7 counterexample: the cancel redirect callback applied to an already
collected (redeemed) order is not rejected: it restores the listing's
stock and deletes the finalized order. -/
theorem C7_redirect_cancel_mutates_collected_order :
    demoCollected.order.map Order.status = some .collected
      ∧ yocoCancelRoute demoCollected (some "o1") =
        (.redirect "payment/cancelled",
          { demoCollected with bag := releaseBag demoCollected.bag 1, order := none }) :=
  ⟨rfl, rfl⟩

/-- C7 amended: the buyer-cancel endpoint rejects an order outside
pending/paid with a 400 error and leaves the whole state unchanged, though
its status guard is evaluated on a read made before the update
transaction rather than inside it; the redirect cancel/failure callbacks
apply no status guard at all and unconditionally restore the listing and
delete whatever order exists. -/
theorem C7_cancel_guards :
    (∀ s o callerId reason? now, s.order = some o → o.userId = callerId →
        ¬(o.status = .pending ∨ o.status = .paid) →
        cancelOrderRoute s callerId o.id reason? now = (.apiErr "Order cannot be cancelled" 400, s))
  ∧ (∀ s o, s.order = some o →
        yocoCancelRoute s (some o.id) =
          (.redirect "payment/cancelled",
            { s with bag := releaseBag s.bag o.quantity, order := none })) := by
  constructor
  · intro s o callerId reason? now ho huser hst
    simp [cancelOrderRoute, ho, huser, hst]
  · intro s o ho
    simp [yocoCancelRoute, cancelCallbackCore, restoreInventory, deleteOrderIgnoringErrors, ho]

/-- C7 witness: the guard rejecting a collected order unchanged, and the
unguarded callback mutating it. -/
theorem C7_cancel_guards_witness :
    cancelOrderRoute demoCollected "u1" demoCollectedOrder.id none 50 =
        (.apiErr "Order cannot be cancelled" 400, demoCollected)
      ∧ yocoCancelRoute demoCollected (some demoCollectedOrder.id) =
        (.redirect "payment/cancelled",
          { demoCollected with
            bag := releaseBag demoCollected.bag demoCollectedOrder.quantity, order := none }) :=
  ⟨C7_cancel_guards.1 demoCollected demoCollectedOrder "u1" none 50 rfl rfl (by decide),
   C7_cancel_guards.2 demoCollected demoCollectedOrder rfl⟩

/-- C8 counterexample: for an active, not-sold-out listing whose pickup
window has already closed and whose stock is too low, the reservation
fails with the insufficient-stock error, not the claimed
unavailable/window error — the stock check runs before the window check. -/
theorem C8_stock_error_beats_closed_window :
    ({ demoBag with quantityRemaining := 0, pickupEnd := 5 } : Bag).isActive = true
      ∧ ({ demoBag with quantityRemaining := 0, pickupEnd := 5 } : Bag).isSoldOut = false
      ∧ 10 > ({ demoBag with quantityRemaining := 0, pickupEnd := 5 } : Bag).pickupEnd
      ∧ reserveTx (some { demoBag with quantityRemaining := 0, pickupEnd := 5 }) 1 10 =
          .error ⟨"Not enough bags available", 400⟩ :=
  ⟨rfl, rfl, by decide, rfl⟩

/-- C8 amended: the reservation fails with `NotFound` when the listing is
missing, `Unavailable` when inactive or sold out, `InsufficientStock` when
`quantity > remaining`, and only then `Unavailable` for a closed pickup
window (the window check runs after the stock check); on success it
atomically decrements `remaining` by the quantity, sets the sold-out flag
exactly when the post-decrement remaining is zero, and creates the order
in status `pending`. -/
theorem C8_reserve_characterization :
    (∀ q now : Nat, reserveTx none q now = .error ⟨"Bag not found", 404⟩)
  ∧ (∀ (b : Bag) (q now : Nat), (b.isActive = false ∨ b.isSoldOut = true) →
        reserveTx (some b) q now = .error ⟨"Bag is not available", 400⟩)
  ∧ (∀ (b : Bag) (q now : Nat), b.isActive = true → b.isSoldOut = false →
        b.quantityRemaining < (q : Int) →
        reserveTx (some b) q now = .error ⟨"Not enough bags available", 400⟩)
  ∧ (∀ (b : Bag) (q now : Nat), b.isActive = true → b.isSoldOut = false →
        (q : Int) ≤ b.quantityRemaining → now > b.pickupEnd →
        reserveTx (some b) q now = .error ⟨"Pickup window has ended", 400⟩)
  ∧ (∀ (b : Bag) (q now : Nat), b.isActive = true → b.isSoldOut = false →
        (q : Int) ≤ b.quantityRemaining → now ≤ b.pickupEnd →
        ∃ b2 : Bag, reserveTx (some b) q now = .ok b2
          ∧ b2.quantityRemaining = b.quantityRemaining - (q : Int)
          ∧ (b2.isSoldOut = true ↔ b2.quantityRemaining = 0)
          ∧ b2.quantityTotal = b.quantityTotal
          ∧ b2.isActive = b.isActive
          ∧ b2.priceCurrent = b.priceCurrent
          ∧ b2.pickupEnd = b.pickupEnd)
  ∧ (∀ (s : SysState) (callerId : String) (q now : Nat) (oid onum qr cid : String)
        (b2 : Bag), reserveTx (some s.bag) q now = .ok b2 →
        ∃ o : Order,
          (createOrderRoute s callerId q now oid onum qr true cid).2.order = some o
            ∧ o.status = .pending
            ∧ (createOrderRoute s callerId q now oid onum qr true cid).2.bag = b2) := by
  refine ⟨fun q now => rfl, ?_, ?_, ?_, ?_, ?_⟩
  · intro b q now h
    rcases h with h | h <;> simp [reserveTx, h]
  · intro b q now hact hsold hlt
    simp [reserveTx, hact, hsold, hlt]
  · intro b q now hact hsold hle hwin
    simp [reserveTx, hact, hsold, not_lt.mpr hle, hwin]
  · intro b q now hact hsold hle hwin
    have h1 : ¬(b.quantityRemaining < (q : Int)) := not_lt.mpr hle
    have h2 : ¬(now > b.pickupEnd) := not_lt.mpr hwin
    have h3 : ¬(b.quantityRemaining - (q : Int) < 0) := by omega
    refine ⟨{ b with
        quantityRemaining := b.quantityRemaining - (q : Int)
        isSoldOut := decide (b.quantityRemaining - (q : Int) ≤ 0) },
      ?_, rfl, ?_, rfl, rfl, rfl, rfl⟩
    · simp [reserveTx, hact, hsold, h1, h2, h3]
    · simp only [decide_eq_true_eq]
      omega
  · intro s callerId q now oid onum qr cid b2 hres
    unfold createOrderRoute
    rw [hres]
    exact ⟨_, rfl, rfl, rfl⟩

/-- C8 witness: all six cases of the characterization evaluated at
concrete listings. -/
theorem C8_reserve_characterization_witness :
    reserveTx none 1 10 = .error ⟨"Bag not found", 404⟩
      ∧ reserveTx (some { demoBag with isActive := false }) 1 10 =
          .error ⟨"Bag is not available", 400⟩
      ∧ reserveTx (some { demoBag with quantityRemaining := 0 }) 1 10 =
          .error ⟨"Not enough bags available", 400⟩
      ∧ reserveTx (some { demoBag with pickupEnd := 5 }) 1 10 =
          .error ⟨"Pickup window has ended", 400⟩
      ∧ (∃ b2 : Bag, reserveTx (some demoBag) 1 10 = .ok b2
          ∧ b2.quantityRemaining = demoBag.quantityRemaining - (1 : Int)
          ∧ (b2.isSoldOut = true ↔ b2.quantityRemaining = 0)
          ∧ b2.quantityTotal = demoBag.quantityTotal
          ∧ b2.isActive = demoBag.isActive
          ∧ b2.priceCurrent = demoBag.priceCurrent
          ∧ b2.pickupEnd = demoBag.pickupEnd)
      ∧ (∃ o : Order,
          (createOrderRoute demoStart "u1" 1 10 "o1" "KULA-1" "QR1" true "c1").2.order = some o
            ∧ o.status = .pending
            ∧ (createOrderRoute demoStart "u1" 1 10 "o1" "KULA-1" "QR1" true "c1").2.bag =
              { demoBag with quantityRemaining := 1, isSoldOut := false }) :=
  ⟨C8_reserve_characterization.1 1 10,
   C8_reserve_characterization.2.1 { demoBag with isActive := false } 1 10 (Or.inl rfl),
   C8_reserve_characterization.2.2.1 { demoBag with quantityRemaining := 0 } 1 10 rfl rfl
     (by decide),
   C8_reserve_characterization.2.2.2.1 { demoBag with pickupEnd := 5 } 1 10 rfl rfl (by decide)
     (by decide),
   C8_reserve_characterization.2.2.2.2.1 demoBag 1 10 rfl rfl (by decide) (by decide),
   C8_reserve_characterization.2.2.2.2.2 demoStart "u1" 1 10 "o1" "KULA-1" "QR1" "c1"
     { demoBag with quantityRemaining := 1, isSoldOut := false } (by rfl)⟩

/-- C9: pickup verification by redemption code — 404 when no order
matches the code, 403 when the matched order belongs to a different
restaurant than the presenter, 400 when the status is outside
{`paid`, `ready`}; on success the order moves to `collected` (the code's
name for the spec's terminal `redeemed`) with the scan timestamp stamped,
and a second scan of the same code is rejected, leaving the state
unchanged. -/
theorem C9_scan_verification :
    (∀ (s : SysState) (rid qr : String) (now : Nat), qr ≠ "" →
        (∀ o : Order, s.order = some o → o.qrCode ≠ qr) →
        scanOrderRoute s (some rid) (some qr) now = (.apiErr "Invalid QR code" 404, s))
  ∧ (∀ (s : SysState) (o : Order) (rid : String) (now : Nat), s.order = some o →
        o.qrCode ≠ "" → o.restaurantId ≠ rid →
        scanOrderRoute s (some rid) (some o.qrCode) now =
          (.apiErr "Order belongs to another restaurant" 403, s))
  ∧ (∀ (s : SysState) (o : Order) (now : Nat), s.order = some o →
        o.qrCode ≠ "" → ¬(o.status = .paid ∨ o.status = .ready) →
        scanOrderRoute s (some o.restaurantId) (some o.qrCode) now =
          (.apiErr "Order cannot be collected" 400, s))
  ∧ (∀ (s : SysState) (o : Order) (now now2 : Nat), s.order = some o →
        o.qrCode ≠ "" → (o.status = .paid ∨ o.status = .ready) →
        scanOrderRoute s (some o.restaurantId) (some o.qrCode) now =
          (.jsonOk,
            { s with order := some { o with status := .collected, qrScannedAt := some now } })
          ∧ scanOrderRoute
              (scanOrderRoute s (some o.restaurantId) (some o.qrCode) now).2
              (some o.restaurantId) (some o.qrCode) now2 =
            (.apiErr "Order cannot be collected" 400,
              (scanOrderRoute s (some o.restaurantId) (some o.qrCode) now).2)) := by
  refine ⟨?_, ?_, ?_, ?_⟩
  · intro s rid qr now hqr hmiss
    match hs : s.order with
    | none => simp [scanOrderRoute, hqr, hs]
    | some o => simp [scanOrderRoute, hqr, hs, hmiss o hs]
  · intro s o rid now hs hqr hforeign
    simp [scanOrderRoute, hqr, hs, hforeign]
  · intro s o now hs hqr hst
    simp [scanOrderRoute, hqr, hs, hst]
  · intro s o now now2 hs hqr hst
    have h1 : scanOrderRoute s (some o.restaurantId) (some o.qrCode) now =
        (.jsonOk,
          { s with order := some { o with status := .collected, qrScannedAt := some now } }) := by
      simp [scanOrderRoute, hqr, hs, hst]
    refine ⟨h1, ?_⟩
    rw [h1]
    simp [scanOrderRoute, hqr]

/-- C9 witness: the four scan cases evaluated at the demo states. -/
theorem C9_scan_verification_witness :
    scanOrderRoute demoPaid (some "r1") (some "QRX") 40 =
        (.apiErr "Invalid QR code" 404, demoPaid)
      ∧ scanOrderRoute demoPaid (some "r2") (some demoPaidOrder.qrCode) 40 =
        (.apiErr "Order belongs to another restaurant" 403, demoPaid)
      ∧ scanOrderRoute demoCollected (some demoCollectedOrder.restaurantId)
          (some demoCollectedOrder.qrCode) 50 =
        (.apiErr "Order cannot be collected" 400, demoCollected)
      ∧ scanOrderRoute demoPaid (some demoPaidOrder.restaurantId)
          (some demoPaidOrder.qrCode) 40 =
        (.jsonOk,
          { demoPaid with
            order := some { demoPaidOrder with status := .collected, qrScannedAt := some 40 } })
      ∧ scanOrderRoute
          (scanOrderRoute demoPaid (some demoPaidOrder.restaurantId)
            (some demoPaidOrder.qrCode) 40).2
          (some demoPaidOrder.restaurantId) (some demoPaidOrder.qrCode) 50 =
        (.apiErr "Order cannot be collected" 400,
          (scanOrderRoute demoPaid (some demoPaidOrder.restaurantId)
            (some demoPaidOrder.qrCode) 40).2) :=
  ⟨C9_scan_verification.1 demoPaid "r1" "QRX" 40 (by decide)
      (fun o ho => by cases ho; decide),
   C9_scan_verification.2.1 demoPaid demoPaidOrder "r2" 40 rfl (by decide) (by decide),
   C9_scan_verification.2.2.1 demoCollected demoCollectedOrder 50 rfl (by decide) (by decide),
   (C9_scan_verification.2.2.2 demoPaid demoPaidOrder 40 50 rfl (by decide) (Or.inl rfl)).1,
   (C9_scan_verification.2.2.2 demoPaid demoPaidOrder 40 50 rfl (by decide) (Or.inl rfl)).2⟩

/-- C2 counterexample: create an order for 1 of 2 units, buyer-cancel it
(the cancelled order row is kept), then hit the cancel redirect callback:
`restoreInventory` finds the kept row and releases again, ending with
`quantityRemaining = 3 > quantityTotal = 2`. -/
theorem C2_upper_bound_violated :
    (run demoStart demoDoubleReleaseOps).bag.quantityRemaining = 3
      ∧ (run demoStart demoDoubleReleaseOps).bag.quantityTotal = 2
      ∧ ¬((run demoStart demoDoubleReleaseOps).bag.quantityRemaining ≤
          ((run demoStart demoDoubleReleaseOps).bag.quantityTotal : Int)) :=
  ⟨rfl, rfl, by decide⟩

/-- C2 amended: under every sequence of the system's operations the
counter never goes negative (the reservation guard and its post-decrement
safeguard are checked inside the transaction) and `quantityTotal` is never
mutated, but the upper bound `quantityRemaining ≤ quantityTotal` can be
violated by double releases (see the counterexample). -/
theorem C2_lower_bound_invariant (s : SysState) (ops : List Op)
    (h : 0 ≤ s.bag.quantityRemaining) :
    0 ≤ (run s ops).bag.quantityRemaining
      ∧ (run s ops).bag.quantityTotal = s.bag.quantityTotal := by
  induction ops generalizing s with
  | nil => exact ⟨h, rfl⟩
  | cons op rest ih =>
    have step := applyOp_bag_inv s op h
    have tail := ih (applyOp s op) step.1
    exact ⟨tail.1, tail.2.trans step.2⟩

/-- C2 witness: the invariant evaluated on the double-release sequence. -/
theorem C2_lower_bound_invariant_witness :
    0 ≤ (run demoStart demoDoubleReleaseOps).bag.quantityRemaining
      ∧ (run demoStart demoDoubleReleaseOps).bag.quantityTotal =
        demoStart.bag.quantityTotal :=
  C2_lower_bound_invariant demoStart demoDoubleReleaseOps (by decide)

end Kula




